import Mathlib

/-!
Shallow embedding of the `anchor-amm` program: the `Config` pool record
(`src/programs/anchor-amm/src/state/config.rs`), the error enum
(`src/programs/anchor-amm/src/amm_error.rs`), and the three instruction
handlers `Initialize::init`, `Deposit::deposit` and `Withdraw::withdraw`
(`src/programs/anchor-amm/src/context/`), over an SPL-token-style ledger
in which token accounts carry an owner and a balance, and a mint carries
its authority and supply.  The `constant_product_curve` crate the handlers
call is an external dependency not present in the repository; its two
functions are modelled from the spec, as marked on their definitions.
Unsigned 64-bit amounts are Nats bounded by `U64_LIMIT` where the real
ledger would overflow-check.
-/

namespace AnchorAmm

def U64_LIMIT : Nat := 2 ^ 64

def U128_LIMIT : Nat := 2 ^ 128

/-- An SPL token account: its owner (authority) and balance.
Mirrors the fields of `TokenAccount` that the handlers read. -/
structure TokenAccount where
  owner : Nat
  balance : Nat
deriving Repr, DecidableEq

/-- An SPL mint: its mint authority and current supply.
Mirrors the fields of `Mint` that the handlers read. -/
structure MintAcc where
  authority : Nat
  supply : Nat
deriving Repr, DecidableEq

/-- `state/config.rs`: the `Config` account. -/
structure Config where
  seed : Nat
  authority : Option Nat
  mintX : Nat
  mintY : Nat
  lpBump : Nat
  configBump : Nat
  fee : Nat
  locked : Bool
deriving Repr, DecidableEq

/-- `amm_error.rs` defines exactly `PoolLocked` and `InvalidAmount`.
The two extra constructors model the failure modes of the calls the
handlers make: `curvePanic` is the `.unwrap()` of a curve-library error,
and `tokenFail` is a failed SPL token CPI (e.g. an authority mismatch or
an insufficient balance). -/
inductive AmmErr where
  | poolLocked
  | invalidAmount
  | curvePanic
  | tokenFail
deriving Repr, DecidableEq

/-- SPL `transfer_checked`: moves `amount` from `src` to `dst`; succeeds
only when the signing `auth` is the source account's owner, the source
balance suffices, and the destination balance does not overflow u64. -/
def transferChecked (src dst : TokenAccount) (auth amount : Nat) :
    Option (TokenAccount × TokenAccount) :=
  if auth = src.owner ∧ amount ≤ src.balance ∧ dst.balance + amount < U64_LIMIT then
    some ({ src with balance := src.balance - amount },
          { dst with balance := dst.balance + amount })
  else none

/-- SPL `mint_to`: succeeds only when `auth` is the mint authority and
neither the supply nor the destination balance overflows u64. -/
def mintTo (m : MintAcc) (dst : TokenAccount) (auth amount : Nat) :
    Option (MintAcc × TokenAccount) :=
  if auth = m.authority ∧ m.supply + amount < U64_LIMIT ∧
      dst.balance + amount < U64_LIMIT then
    some ({ m with supply := m.supply + amount },
          { dst with balance := dst.balance + amount })
  else none

/-- SPL `burn`: succeeds only when `auth` owns the source account and the
balance (hence the supply) suffices. -/
def burnTok (m : MintAcc) (src : TokenAccount) (auth amount : Nat) :
    Option (MintAcc × TokenAccount) :=
  if auth = src.owner ∧ amount ≤ src.balance ∧ amount ≤ m.supply then
    some ({ m with supply := m.supply - amount },
          { src with balance := src.balance - amount })
  else none

/-- Result pair of the curve library, mirroring its `XYAmounts`. -/
structure XYAmounts where
  x : Nat
  y : Nat
deriving Repr, DecidableEq

/-- Ceiling division on Nat. -/
def ceilDivN (a b : Nat) : Nat := (a + b - 1) / b

/-- Modelled from the spec: `ConstantProduct::xy_deposit_amounts_from_l`
of the external `constant_product_curve` crate is not part of this
repository.  The spec (§4.1.2, §4.1.5) states
`needed_x = ceil(reserve_x * shares_out / L)`,
`needed_y = ceil(reserve_y * shares_out / L)`, rounded up, computed on
128-bit intermediates, failing on a widened product above `2^128 - 1` or
a computed amount not fitting in 64 bits, and failing on division by
zero. -/
def xy_deposit_amounts_from_l (x y l a _precision : Nat) : Option XYAmounts :=
  if l = 0 then none
  else if x * a < U128_LIMIT ∧ y * a < U128_LIMIT ∧
      ceilDivN (x * a) l < U64_LIMIT ∧ ceilDivN (y * a) l < U64_LIMIT then
    some ⟨ceilDivN (x * a) l, ceilDivN (y * a) l⟩
  else none

/-- Modelled from the spec: `ConstantProduct::xy_withdraw_amounts_from_l`
of the external `constant_product_curve` crate is not part of this
repository.  The spec (§4.1.3, §4.1.5) states
`out_x = floor(reserve_x * shares_in / L)`,
`out_y = floor(reserve_y * shares_in / L)`, rounded down, computed on
128-bit intermediates, with the same overflow and divide-by-zero policy. -/
def xy_withdraw_amounts_from_l (x y l a _precision : Nat) : Option XYAmounts :=
  if l = 0 then none
  else if x * a < U128_LIMIT ∧ y * a < U128_LIMIT ∧
      x * a / l < U64_LIMIT ∧ y * a / l < U64_LIMIT then
    some ⟨x * a / l, y * a / l⟩
  else none

/-- The accounts the `Deposit` and `Withdraw` contexts share: the signing
user, the user's two token accounts, the two pool vaults (owned by the
config PDA), the config record and its address, the LP mint and the
user's LP token account. -/
structure PoolCtx where
  user : Nat
  userAtaX : TokenAccount
  userAtaY : TokenAccount
  vaultX : TokenAccount
  vaultY : TokenAccount
  config : Config
  configKey : Nat
  lpMint : MintAcc
  userLpAta : TokenAccount
deriving Repr, DecidableEq

/-- `Deposit::deposit_token`: transfer from the user's ATA into the vault
with the user as signing authority. -/
def depositToken (s : PoolCtx) (isX : Bool) (amount : Nat) : Option PoolCtx :=
  match isX with
  | true =>
    match transferChecked s.userAtaX s.vaultX s.user amount with
    | some (f, t) => some { s with userAtaX := f, vaultX := t }
    | none => none
  | false =>
    match transferChecked s.userAtaY s.vaultY s.user amount with
    | some (f, t) => some { s with userAtaY := f, vaultY := t }
    | none => none

/-- `Deposit::mint_lp_tokens`: mint to the user's LP ATA with the config
PDA as authority (the handler supplies the config signer seeds). -/
def mintLpTokens (s : PoolCtx) (amount : Nat) : Option PoolCtx :=
  match mintTo s.lpMint s.userLpAta s.configKey amount with
  | some (m, t) => some { s with lpMint := m, userLpAta := t }
  | none => none

/-- `Withdraw::withdraw_token`: transfer from the vault to the user's ATA,
passing `self.user` — not the config PDA that owns the vault — as the
signing authority, with no signer seeds. -/
def withdrawToken (s : PoolCtx) (isX : Bool) (amount : Nat) : Option PoolCtx :=
  match isX with
  | true =>
    match transferChecked s.vaultX s.userAtaX s.user amount with
    | some (f, t) => some { s with vaultX := f, userAtaX := t }
    | none => none
  | false =>
    match transferChecked s.vaultY s.userAtaY s.user amount with
    | some (f, t) => some { s with vaultY := f, userAtaY := t }
    | none => none

/-- `Withdraw::burn_lp_tokens`: burn from the user's LP ATA with the user
as authority. -/
def burnLpTokens (s : PoolCtx) (amount : Nat) : Option PoolCtx :=
  match burnTok s.lpMint s.userLpAta s.user amount with
  | some (m, t) => some { s with lpMint := m, userLpAta := t }
  | none => none

/-- `Deposit::deposit`: lock check, nonzero-amount check, bootstrap branch
when the LP supply and both vault balances are zero (taking `max_x, max_y`
verbatim), otherwise the curve's proportional amounts (unwrapped); then the
two transfers and the LP mint of `amount`. -/
def deposit (s : PoolCtx) (amount max_x max_y : Nat) : Except AmmErr PoolCtx :=
  if s.config.locked = true then .error .poolLocked
  else if amount = 0 then .error .invalidAmount
  else
    match (if s.lpMint.supply = 0 ∧ s.vaultX.balance = 0 ∧ s.vaultY.balance = 0 then
        some ⟨max_x, max_y⟩
      else
        xy_deposit_amounts_from_l s.vaultX.balance s.vaultY.balance
          s.lpMint.supply amount 6 : Option XYAmounts) with
    | none => .error .curvePanic
    | some xy =>
      match depositToken s true xy.x with
      | none => .error .tokenFail
      | some s1 =>
        match depositToken s1 false xy.y with
        | none => .error .tokenFail
        | some s2 =>
          match mintLpTokens s2 amount with
          | none => .error .tokenFail
          | some s3 => .ok s3

/-- `Withdraw::withdraw`: lock check, nonzero-amount check, the check that
`min_x` and `min_y` are not both zero, the curve's proportional outputs
(unwrapped), then the two vault debits and the LP burn of `amount`. -/
def withdraw (s : PoolCtx) (amount min_x min_y : Nat) : Except AmmErr PoolCtx :=
  if s.config.locked = true then .error .poolLocked
  else if amount = 0 then .error .invalidAmount
  else if min_x = 0 ∧ min_y = 0 then .error .invalidAmount
  else
    match xy_withdraw_amounts_from_l s.vaultX.balance s.vaultY.balance
        s.lpMint.supply amount 6 with
    | none => .error .curvePanic
    | some r =>
      match withdrawToken s true r.x with
      | none => .error .tokenFail
      | some s1 =>
        match withdrawToken s1 false r.y with
        | none => .error .tokenFail
        | some s2 =>
          match burnLpTokens s2 amount with
          | none => .error .tokenFail
          | some s3 => .ok s3

/-- The bump seeds Anchor passes to `Initialize::init`. -/
structure InitBumps where
  lpMint : Nat
  config : Nat
deriving Repr, DecidableEq

/-- `Initialize::init`: writes the `Config` record with `locked = false`
and the given fields verbatim; it performs no validation and always
returns `Ok`. -/
def initPool (seed fee : Nat) (auth : Option Nat) (mintXKey mintYKey : Nat)
    (bumps : InitBumps) : Except AmmErr Config :=
  .ok { seed := seed, authority := auth, mintX := mintXKey, mintY := mintYKey,
        lpBump := bumps.lpMint, configBump := bumps.config, fee := fee,
        locked := false }

/-- The byte string `b"lp_mint"` used in `init.rs` to derive the LP mint
program address. -/
def lpMintSeedOfInit : List Nat := [108, 112, 95, 109, 105, 110, 116]

/-- The byte string `b"lp"` used in `deposit.rs` and `withdraw.rs` to
derive the expected LP mint program address. -/
def lpSeedOfUserOps : List Nat := [108, 112]

/-- The seed list of the LP mint account that `initialize` creates:
`seeds = [b"lp_mint", config.key()]` (`init.rs`).  A program-derived
address is a function of its seed list (and the fixed program id);
distinct seed lists give distinct addresses up to negligible hash
collisions, so seed lists are the faithful shallow model of these
account constraints. -/
def initLpMintSeeds (configKey : List Nat) : List (List Nat) :=
  [lpMintSeedOfInit, configKey]

/-- The seed list the `Deposit` context demands of its `lp_mint` account:
`seeds = [b"lp", config.key()]` (`deposit.rs`). -/
def depositLpMintSeeds (configKey : List Nat) : List (List Nat) :=
  [lpSeedOfUserOps, configKey]

/-- The seed list the `Withdraw` context demands of its `lp_mint` account:
`seeds = [b"lp", config.key()]` (`withdraw.rs`). -/
def withdrawLpMintSeeds (configKey : List Nat) : List (List Nat) :=
  [lpSeedOfUserOps, configKey]

/-- Whether an `Except` result is a success. -/
def exOk {α : Type} (e : Except AmmErr α) : Bool :=
  match e with
  | .ok _ => true
  | .error _ => false

/-- A pool context in the state the spec's scenario S2 leaves behind:
reserves (1 250 000, 5 000 000), LP supply 5 000 000; account 1 is the
user, account 2 the config PDA that owns both vaults and the LP mint. -/
def poolS2 : PoolCtx :=
  { user := 1
    userAtaX := ⟨1, 1000000000⟩
    userAtaY := ⟨1, 10000000000⟩
    vaultX := ⟨2, 1250000⟩
    vaultY := ⟨2, 5000000⟩
    config := ⟨7, none, 11, 12, 3, 4, 30, false⟩
    configKey := 2
    lpMint := ⟨2, 5000000⟩
    userLpAta := ⟨1, 5000000⟩ }

/-- A fresh, empty pool context: zero reserves and zero LP supply. -/
def poolEmpty : PoolCtx :=
  { user := 1
    userAtaX := ⟨1, 1000000000⟩
    userAtaY := ⟨1, 10000000000⟩
    vaultX := ⟨2, 0⟩
    vaultY := ⟨2, 0⟩
    config := ⟨7, none, 11, 12, 3, 4, 30, false⟩
    configKey := 2
    lpMint := ⟨2, 0⟩
    userLpAta := ⟨1, 0⟩ }

/-- `poolS2` with the lock flag set. -/
def poolS2Locked : PoolCtx :=
  { poolS2 with config := ⟨7, none, 11, 12, 3, 4, 30, true⟩ }

/-- Characterization of `ceilDivN`: for a positive divisor it is the least
multiple bound, `a ≤ ceilDivN a b * b < a + b`. -/
theorem ceilDivN_spec (a b : Nat) (hb : 0 < b) :
    a ≤ ceilDivN a b * b ∧ ceilDivN a b * b < a + b := by
  have hub : ceilDivN a b * b ≤ a + b - 1 := Nat.div_mul_le_self (a + b - 1) b
  constructor
  · by_contra hlt
    push_neg at hlt
    have hx : (ceilDivN a b + 1) * b = ceilDivN a b * b + b := by ring
    have hstep : (ceilDivN a b + 1) * b ≤ a + b - 1 := by omega
    have h2 : ceilDivN a b + 1 ≤ (a + b - 1) / b :=
      (Nat.le_div_iff_mul_le hb).mpr hstep
    have h3 : (a + b - 1) / b = ceilDivN a b := rfl
    omega
  · omega

/-- C6: a deposit or withdraw on a pool whose lock flag is set returns
`PoolLocked` and commits nothing (the error result carries no state
change). -/
theorem c6_lock_enforcement (s : PoolCtx) (amount mx my : Nat)
    (hlock : s.config.locked = true) :
    deposit s amount mx my = .error .poolLocked ∧
    withdraw s amount mx my = .error .poolLocked := by
  unfold deposit withdraw
  rw [if_pos hlock, if_pos hlock]
  exact ⟨rfl, rfl⟩

theorem c6_lock_enforcement_witness :
    deposit poolS2Locked 5 5 5 = .error .poolLocked ∧
    withdraw poolS2Locked 5 5 5 = .error .poolLocked :=
  c6_lock_enforcement poolS2Locked 5 5 5 rfl

/-- C9: on an unlocked pool, withdraw fails with `InvalidAmount` whenever
`shares_in = 0` or both `min_x = 0` and `min_y = 0`, before any balance
change. -/
theorem c9_withdraw_invalid_amount (s : PoolCtx) (amount min_x min_y : Nat)
    (hlock : s.config.locked = false)
    (h : amount = 0 ∨ (min_x = 0 ∧ min_y = 0)) :
    withdraw s amount min_x min_y = .error .invalidAmount := by
  unfold withdraw
  rw [if_neg (by simp [hlock])]
  rcases h with h | h
  · rw [if_pos h]
  · by_cases ha : amount = 0
    · rw [if_pos ha]
    · rw [if_neg ha, if_pos h]

theorem c9_withdraw_invalid_amount_witness :
    withdraw poolS2 0 1 1 = .error .invalidAmount :=
  c9_withdraw_invalid_amount poolS2 0 1 1 rfl (Or.inl rfl)
/-- C5: `Withdraw::withdraw_token` passes the user, not the config PDA
that owns the vaults, as the transfer authority; so on any withdraw that
passes validation and computes outputs, the vault debit fails the
ledger's owner check and the whole withdraw fails with no balance
change. -/
theorem c5_withdraw_misauthorized (s : PoolCtx) (amount min_x min_y nx ny : Nat)
    (hlock : s.config.locked = false) (hamt : amount ≠ 0)
    (hmin : ¬(min_x = 0 ∧ min_y = 0))
    (hcurve : xy_withdraw_amounts_from_l s.vaultX.balance s.vaultY.balance
        s.lpMint.supply amount 6 = some ⟨nx, ny⟩)
    (hnz : 0 < nx ∨ 0 < ny)
    (hvx : s.vaultX.owner = s.configKey)
    (hne : s.user ≠ s.configKey) :
    withdraw s amount min_x min_y = .error .tokenFail := by
  unfold withdraw
  rw [if_neg (by simp [hlock]), if_neg hamt, if_neg hmin, hcurve]
  have hwt : withdrawToken s true nx = none := by
    unfold withdrawToken transferChecked
    rw [if_neg (fun hc => hne (by rw [← hvx]; exact hc.1))]
  simp [hwt]

theorem c5_withdraw_misauthorized_witness :
    withdraw poolS2 500000 120000 490000 = .error .tokenFail :=
  c5_withdraw_misauthorized poolS2 500000 120000 490000 125000 500000 rfl
    (by decide) (by decide) (by decide) (by decide) rfl (by decide)

/-- C2 (amended): withdraw applies no slippage guard: beyond the check
that `min_x` and `min_y` are not both zero, their values have no effect
on the outcome. -/
theorem c2_withdraw_ignores_min (s : PoolCtx) (amount mx my mx' my' : Nat)
    (h1 : ¬(mx = 0 ∧ my = 0)) (h2 : ¬(mx' = 0 ∧ my' = 0)) :
    withdraw s amount mx my = withdraw s amount mx' my' := by
  unfold withdraw
  rw [if_neg h1, if_neg h2]

theorem c2_withdraw_ignores_min_witness :
    withdraw poolS2 500000 1 0 = withdraw poolS2 500000 7 9 :=
  c2_withdraw_ignores_min poolS2 500000 1 0 7 9 (by decide) (by decide)

/-- C2 counterexample: from the spec's S2 state, a withdraw whose computed
outputs satisfy both minimums (the claim's success branch) does not debit
anything: it fails at the mis-authorized vault transfer. -/
theorem c2_counterexample :
    xy_withdraw_amounts_from_l 1250000 5000000 5000000 500000 6 =
      some ⟨125000, 500000⟩ ∧
    120000 ≤ 125000 ∧ 490000 ≤ 500000 ∧
    withdraw poolS2 500000 120000 490000 = .error .tokenFail :=
  ⟨by decide, by decide, by decide, rfl⟩

/-- C4: the seed list from which `initialize` derives the LP mint it
creates differs, for every config address, from the seed list that
`deposit` and `withdraw` demand of their `lp_mint` account (which agree
with each other); so the initialized LP mint can never satisfy the user
operations' account constraint. -/
theorem c4_lp_mint_seed_mismatch (configKey : List Nat) :
    initLpMintSeeds configKey ≠ depositLpMintSeeds configKey ∧
    initLpMintSeeds configKey ≠ withdrawLpMintSeeds configKey ∧
    depositLpMintSeeds configKey = withdrawLpMintSeeds configKey := by
  refine ⟨?_, ?_, rfl⟩ <;>
    · intro h
      simp [initLpMintSeeds, depositLpMintSeeds, withdrawLpMintSeeds,
        lpMintSeedOfInit, lpSeedOfUserOps] at h

/-- C10 (amended): `Initialize::init` performs no fee validation: every
representable u16 fee, including values at or above 10 000, is accepted
and stored verbatim in the created pool record. -/
theorem c10_init_stores_any_fee (seed fee : Nat) (auth : Option Nat)
    (mx my lb cb : Nat) (hfee : fee < 2 ^ 16) :
    initPool seed fee auth mx my ⟨lb, cb⟩ =
      .ok ⟨seed, auth, mx, my, lb, cb, fee, false⟩ := rfl

theorem c10_init_stores_any_fee_witness :
    initPool 7 10000 none 11 12 ⟨3, 4⟩ =
      .ok ⟨7, none, 11, 12, 3, 4, 10000, false⟩ :=
  c10_init_stores_any_fee 7 10000 none 11 12 3 4 (by decide)

/-- C10 counterexample: `initialize` with `fee_bps = 10 000` does not fail
with `InvalidFee`; it succeeds and stores 10 000. -/
theorem c10_counterexample :
    initPool 9 10000 (some 21) 11 12 ⟨3, 4⟩ =
      .ok ⟨9, some 21, 11, 12, 3, 4, 10000, false⟩ := rfl

/-- C7: the proportional deposit amounts (spec-modelled curve) are the
exact ceilings `needed_x = ceil(reserve_x * shares_out / L)` and
`needed_y = ceil(reserve_y * shares_out / L)`: each is the least value
whose product with `L` covers the widened 128-bit product. -/
theorem c7_deposit_ceil (x y l a : Nat) (hl : 0 < l)
    (hx : x * a < U128_LIMIT) (hy : y * a < U128_LIMIT)
    (hnx : ceilDivN (x * a) l < U64_LIMIT)
    (hny : ceilDivN (y * a) l < U64_LIMIT) :
    xy_deposit_amounts_from_l x y l a 6 =
      some ⟨ceilDivN (x * a) l, ceilDivN (y * a) l⟩ ∧
    x * a ≤ ceilDivN (x * a) l * l ∧ ceilDivN (x * a) l * l < x * a + l ∧
    y * a ≤ ceilDivN (y * a) l * l ∧ ceilDivN (y * a) l * l < y * a + l := by
  refine ⟨?_, (ceilDivN_spec _ _ hl).1, (ceilDivN_spec _ _ hl).2,
    (ceilDivN_spec _ _ hl).1, (ceilDivN_spec _ _ hl).2⟩
  unfold xy_deposit_amounts_from_l
  rw [if_neg (by omega), if_pos ⟨hx, hy, hnx, hny⟩]

theorem c7_deposit_ceil_witness :
    (xy_deposit_amounts_from_l 1250000 5000000 5000000 1000000 6 =
      some ⟨ceilDivN (1250000 * 1000000) 5000000,
            ceilDivN (5000000 * 1000000) 5000000⟩ ∧
    1250000 * 1000000 ≤ ceilDivN (1250000 * 1000000) 5000000 * 5000000 ∧
    ceilDivN (1250000 * 1000000) 5000000 * 5000000 <
      1250000 * 1000000 + 5000000 ∧
    5000000 * 1000000 ≤ ceilDivN (5000000 * 1000000) 5000000 * 5000000 ∧
    ceilDivN (5000000 * 1000000) 5000000 * 5000000 <
      5000000 * 1000000 + 5000000) :=
  c7_deposit_ceil 1250000 5000000 5000000 1000000 (by decide) (by decide)
    (by decide) (by decide) (by decide)
/-- C1 (amended): the proportional deposit path applies no slippage guard:
`max_x` and `max_y` are never compared with the computed amounts, and
whenever the transfers are feasible the deposit commits `needed_x` and
`needed_y` — for every `max_x`, `max_y`, including values below the
needed amounts. -/
theorem c1_deposit_ignores_max (s : PoolCtx) (amount max_x max_y nx ny : Nat)
    (hlock : s.config.locked = false) (hamt : amount ≠ 0)
    (hsup : s.lpMint.supply ≠ 0)
    (hcurve : xy_deposit_amounts_from_l s.vaultX.balance s.vaultY.balance
        s.lpMint.supply amount 6 = some ⟨nx, ny⟩)
    (hux : s.userAtaX.owner = s.user) (huy : s.userAtaY.owner = s.user)
    (hbx : nx ≤ s.userAtaX.balance) (hby : ny ≤ s.userAtaY.balance)
    (hfx : s.vaultX.balance + nx < U64_LIMIT)
    (hfy : s.vaultY.balance + ny < U64_LIMIT)
    (hauth : s.lpMint.authority = s.configKey)
    (hsl : s.lpMint.supply + amount < U64_LIMIT)
    (hul : s.userLpAta.balance + amount < U64_LIMIT) :
    deposit s amount max_x max_y =
      .ok { s with
        userAtaX := { s.userAtaX with balance := s.userAtaX.balance - nx },
        userAtaY := { s.userAtaY with balance := s.userAtaY.balance - ny },
        vaultX := { s.vaultX with balance := s.vaultX.balance + nx },
        vaultY := { s.vaultY with balance := s.vaultY.balance + ny },
        lpMint := { s.lpMint with supply := s.lpMint.supply + amount },
        userLpAta :=
          { s.userLpAta with balance := s.userLpAta.balance + amount } } := by
  unfold deposit
  rw [if_neg (by simp [hlock]), if_neg hamt, if_neg (fun h => hsup h.1), hcurve]
  simp [depositToken, transferChecked, mintLpTokens, mintTo,
    hux, huy, hbx, hby, hfx, hfy, hauth, hsl, hul]

theorem c1_deposit_ignores_max_witness :
    deposit poolS2 1000000 3 3 =
      .ok ⟨1, ⟨1, 999750000⟩, ⟨1, 9999000000⟩, ⟨2, 1500000⟩, ⟨2, 6000000⟩,
        ⟨7, none, 11, 12, 3, 4, 30, false⟩, 2, ⟨2, 6000000⟩, ⟨1, 6000000⟩⟩ :=
  c1_deposit_ignores_max poolS2 1000000 3 3 250000 1000000 rfl (by decide)
    (by decide) (by decide) rfl rfl (by decide) (by decide) (by decide)
    (by decide) rfl (by decide) (by decide)

/-- C1 counterexample: from the spec's S2 state (reserves 1 250 000 and
5 000 000, L = 5 000 000), depositing 1 000 000 shares with
`max_x = max_y = 1` computes `needed_x = 250000 > 1` yet commits: no
`SlippageExceeded` check exists. -/
theorem c1_counterexample :
    xy_deposit_amounts_from_l 1250000 5000000 5000000 1000000 6 =
      some ⟨250000, 1000000⟩ ∧
    1 < 250000 ∧
    deposit poolS2 1000000 1 1 =
      .ok ⟨1, ⟨1, 999750000⟩, ⟨1, 9999000000⟩, ⟨2, 1500000⟩, ⟨2, 6000000⟩,
        ⟨7, none, 11, 12, 3, 4, 30, false⟩, 2, ⟨2, 6000000⟩, ⟨1, 6000000⟩⟩ :=
  ⟨by decide, by decide, rfl⟩

/-- C3 (amended): a first deposit into an empty pool takes `max_x` and
`max_y` in full and mints exactly the requested `shares_out` (the
`amount` argument) — not `max(max_x, max_y)`. -/
theorem c3_bootstrap_mints_requested (s : PoolCtx) (amount max_x max_y : Nat)
    (hlock : s.config.locked = false) (hamt : amount ≠ 0)
    (hpx : 0 < max_x) (hpy : 0 < max_y)
    (hsup : s.lpMint.supply = 0) (hvx : s.vaultX.balance = 0)
    (hvy : s.vaultY.balance = 0)
    (hux : s.userAtaX.owner = s.user) (huy : s.userAtaY.owner = s.user)
    (hbx : max_x ≤ s.userAtaX.balance) (hby : max_y ≤ s.userAtaY.balance)
    (hfx : s.vaultX.balance + max_x < U64_LIMIT)
    (hfy : s.vaultY.balance + max_y < U64_LIMIT)
    (hauth : s.lpMint.authority = s.configKey)
    (hsl : s.lpMint.supply + amount < U64_LIMIT)
    (hul : s.userLpAta.balance + amount < U64_LIMIT) :
    deposit s amount max_x max_y =
      .ok { s with
        userAtaX := { s.userAtaX with balance := s.userAtaX.balance - max_x },
        userAtaY := { s.userAtaY with balance := s.userAtaY.balance - max_y },
        vaultX := { s.vaultX with balance := s.vaultX.balance + max_x },
        vaultY := { s.vaultY with balance := s.vaultY.balance + max_y },
        lpMint := { s.lpMint with supply := s.lpMint.supply + amount },
        userLpAta :=
          { s.userLpAta with balance := s.userLpAta.balance + amount } } := by
  unfold deposit
  rw [if_neg (by simp [hlock]), if_neg hamt, if_pos ⟨hsup, hvx, hvy⟩]
  simp [depositToken, transferChecked, mintLpTokens, mintTo,
    hux, huy, hbx, hby, hfx, hfy, hauth, hsl, hul]

theorem c3_bootstrap_mints_requested_witness :
    deposit poolEmpty 500000 1000000 4000000 =
      .ok ⟨1, ⟨1, 999000000⟩, ⟨1, 9996000000⟩, ⟨2, 1000000⟩, ⟨2, 4000000⟩,
        ⟨7, none, 11, 12, 3, 4, 30, false⟩, 2, ⟨2, 500000⟩, ⟨1, 500000⟩⟩ :=
  c3_bootstrap_mints_requested poolEmpty 500000 1000000 4000000 rfl
    (by decide) (by decide) (by decide) rfl rfl rfl rfl rfl (by decide)
    (by decide) (by decide) (by decide) rfl (by decide) (by decide)

/-- C3 counterexample: the spec's S1 bootstrap
(`shares_out = 1 000 000`, `max_x = 1 000 000`, `max_y = 4 000 000`)
mints 1 000 000 LP shares, not `max(max_x, max_y) = 4 000 000`. -/
theorem c3_counterexample :
    deposit poolEmpty 1000000 1000000 4000000 =
      .ok ⟨1, ⟨1, 999000000⟩, ⟨1, 9996000000⟩, ⟨2, 1000000⟩, ⟨2, 4000000⟩,
        ⟨7, none, 11, 12, 3, 4, 30, false⟩, 2, ⟨2, 1000000⟩, ⟨1, 1000000⟩⟩ ∧
    (1000000 : Nat) ≠ max 1000000 4000000 :=
  ⟨rfl, by decide⟩

/-- C8 (amended): on an unlocked pool, deposit fails with `InvalidAmount`
exactly when `shares_out = 0`; `max_x` and `max_y` are not validated. -/
theorem c8_invalid_amount_iff (s : PoolCtx) (amount max_x max_y : Nat)
    (hlock : s.config.locked = false) :
    (deposit s amount max_x max_y = .error .invalidAmount) ↔ amount = 0 := by
  unfold deposit
  rw [if_neg (by simp [hlock])]
  by_cases ha : amount = 0
  · simp [ha]
  · rw [if_neg ha]
    refine iff_of_false ?_ ha
    intro h
    repeat' split at h
    all_goals simp_all

theorem c8_invalid_amount_iff_witness :
    (deposit poolS2 0 5 5 = .error .invalidAmount) ↔ (0 = 0) :=
  c8_invalid_amount_iff poolS2 0 5 5 rfl

/-- C8 counterexample: a deposit with `max_x = 0` and `max_y = 0` (and
nonzero `shares_out`) does not fail with `InvalidAmount`; on the S2 state
it succeeds. -/
theorem c8_counterexample : exOk (deposit poolS2 1000000 0 0) = true := by
  decide

end AnchorAmm
